import Mathlib

/-!
Verification of the omarchy-theme-gen theme deployment pipeline.

This file gives a shallow embedding, in Lean, of the Rust sources under
src/Generator/src (color.rs, extractor.rs, generator.rs, linker.rs) and
proves properties of the embedded functions.  Filesystem, template
rendering, program detection and activation are effectful leaves of the
Rust code; they are modelled as explicit environments (records of
functions) and, where a run mutates the filesystem, as explicit state
threaded through the embedded functions.  Machine strings are modelled
as Lean `String` / `List Char`.
-/

set_option maxRecDepth 4000

namespace ThemeGen

/-! ## color.rs : Color -/

/-- Rust `char::is_ascii_hexdigit`: 0-9, a-f, A-F. -/
def isAsciiHexdigit (c : Char) : Bool :=
  ('0' ≤ c && c ≤ '9') || ('a' ≤ c && c ≤ 'f') || ('A' ≤ c && c ≤ 'F')

/-- Rust `str::trim_start_matches('#')`: removes ALL leading occurrences
of the pattern, not just one. -/
def trimStartHash : List Char → List Char
  | [] => []
  | c :: rest => if c = '#' then trimStartHash rest else c :: rest

/-- Rust `hex.chars().flat_map(|c| std::iter::repeat(c).take(2)).collect()`:
each character duplicated in place. -/
def dupEach : List Char → List Char
  | [] => []
  | c :: rest => c :: c :: dupEach rest

/-- `Color(pub String)` from color.rs; the stored string, as a char list. -/
structure Color where
  val : List Char
deriving DecidableEq, Repr

/-- `Color::new` from color.rs (returns `Result`, modelled as `Option`). -/
def Color.new (hex : List Char) : Option Color :=
  let h := trimStartHash hex
  if h.length ≠ 3 ∧ h.length ≠ 6 then
    none
  else if ¬ (h.all isAsciiHexdigit = true) then
    none
  else
    let normalized := if h.length = 3 then dupEach h else h
    some ⟨'#' :: normalized⟩

/-- The words of claim C2 ("after removing a leading '#'"): remove at most
ONE leading '#'.  Used only to compare the claim against `Color.new`,
whose `trim_start_matches` removes every leading '#'. -/
def stripOneHash : List Char → List Char
  | '#' :: rest => rest
  | s => s

/-! ## color.rs : ColorPalette -/

/-- First-writer-wins combination of two optional values. -/
def optOr {α : Type} (a b : Option α) : Option α :=
  match a with
  | some v => some v
  | none => b

/-- One expansion of the Rust `merge_field!` macro:
`if self.f.is_none() && other.f.is_some() { self.f = other.f }`. -/
def mergeField (a b : Option Color) : Option Color :=
  if a.isNone && b.isSome then b else a

/-- `HashMap::get` on the custom-color map, modelled as an association
list: the value of the first binding of the key. -/
def lookupCustom (m : List (String × Color)) (k : String) : Option Color :=
  (m.find? (fun p => p.1 = k)).map Prod.snd

/-- `self.custom.entry(key).or_insert(value)`: insert only when the key
is absent. -/
def orInsert (m : List (String × Color)) (k : String) (v : Color) :
    List (String × Color) :=
  if m.any (fun p => p.1 = k) then m else m ++ [(k, v)]

/-- `ColorPalette` from color.rs: 21 fixed optional slots plus the
open-ended custom map. -/
structure ColorPalette where
  background : Option Color
  foreground : Option Color
  black : Option Color
  red : Option Color
  green : Option Color
  yellow : Option Color
  blue : Option Color
  magenta : Option Color
  cyan : Option Color
  white : Option Color
  bright_black : Option Color
  bright_red : Option Color
  bright_green : Option Color
  bright_yellow : Option Color
  bright_blue : Option Color
  bright_magenta : Option Color
  bright_cyan : Option Color
  bright_white : Option Color
  cursor : Option Color
  selection_background : Option Color
  selection_foreground : Option Color
  custom : List (String × Color)
deriving DecidableEq, Repr

/-- `ColorPalette::default()` (derived `Default`): every slot `None`,
empty custom map. -/
def ColorPalette.default : ColorPalette :=
  ⟨none, none, none, none, none, none, none, none, none, none, none, none,
   none, none, none, none, none, none, none, none, none, []⟩

/-- `ColorPalette::merge` from color.rs: keep existing values, fill empty
slots from `other`; custom keys via `entry(..).or_insert(..)`. -/
def ColorPalette.merge (self other : ColorPalette) : ColorPalette where
  background := mergeField self.background other.background
  foreground := mergeField self.foreground other.foreground
  black := mergeField self.black other.black
  red := mergeField self.red other.red
  green := mergeField self.green other.green
  yellow := mergeField self.yellow other.yellow
  blue := mergeField self.blue other.blue
  magenta := mergeField self.magenta other.magenta
  cyan := mergeField self.cyan other.cyan
  white := mergeField self.white other.white
  bright_black := mergeField self.bright_black other.bright_black
  bright_red := mergeField self.bright_red other.bright_red
  bright_green := mergeField self.bright_green other.bright_green
  bright_yellow := mergeField self.bright_yellow other.bright_yellow
  bright_blue := mergeField self.bright_blue other.bright_blue
  bright_magenta := mergeField self.bright_magenta other.bright_magenta
  bright_cyan := mergeField self.bright_cyan other.bright_cyan
  bright_white := mergeField self.bright_white other.bright_white
  cursor := mergeField self.cursor other.cursor
  selection_background :=
    mergeField self.selection_background other.selection_background
  selection_foreground :=
    mergeField self.selection_foreground other.selection_foreground
  custom := other.custom.foldl (fun m kv => orInsert m kv.1 kv.2) self.custom

/-- `ColorPalette::get` from color.rs: dispatch on the 21 fixed slot
names, otherwise look in the custom map. -/
def ColorPalette.get (p : ColorPalette) (name : String) : Option Color :=
  match name with
  | "background" => p.background
  | "foreground" => p.foreground
  | "black" => p.black
  | "red" => p.red
  | "green" => p.green
  | "yellow" => p.yellow
  | "blue" => p.blue
  | "magenta" => p.magenta
  | "cyan" => p.cyan
  | "white" => p.white
  | "bright_black" => p.bright_black
  | "bright_red" => p.bright_red
  | "bright_green" => p.bright_green
  | "bright_yellow" => p.bright_yellow
  | "bright_blue" => p.bright_blue
  | "bright_magenta" => p.bright_magenta
  | "bright_cyan" => p.bright_cyan
  | "bright_white" => p.bright_white
  | "cursor" => p.cursor
  | "selection_background" => p.selection_background
  | "selection_foreground" => p.selection_foreground
  | _ => lookupCustom p.custom name

/-- The 21 fixed slot names recognized by `ColorPalette::get`. -/
def isStandardName (n : String) : Bool :=
  match n with
  | "background" => true
  | "foreground" => true
  | "black" => true
  | "red" => true
  | "green" => true
  | "yellow" => true
  | "blue" => true
  | "magenta" => true
  | "cyan" => true
  | "white" => true
  | "bright_black" => true
  | "bright_red" => true
  | "bright_green" => true
  | "bright_yellow" => true
  | "bright_blue" => true
  | "bright_magenta" => true
  | "bright_cyan" => true
  | "bright_white" => true
  | "cursor" => true
  | "selection_background" => true
  | "selection_foreground" => true
  | _ => false

/-! ## extractor.rs -/

/-- `ColorSource` from extractor.rs. -/
inductive ColorSource where
  | Alacritty
  | Btop
  | CustomJson
deriving DecidableEq, Repr

/-- What the filesystem and the per-format parsers (parser.rs, effectful
file readers) yield for one source of a fixed theme directory: the file
is missing, it exists but its parser fails, or it parses to a partial
palette.  `extract_colors` is parameterized by this environment. -/
inductive SourceStatus where
  | missing
  | parseFailed (msg : String)
  | parsed (palette : ColorPalette)

/-- The `for source in priority` loop body of `extract_colors`:
missing files and parse failures are skipped; a parsed palette is merged
into the accumulator and the first parsed source becomes primary. -/
def extractLoop (env : ColorSource → SourceStatus) :
    List ColorSource → ColorPalette → Option ColorSource →
    ColorPalette × Option ColorSource
  | [], acc, prim => (acc, prim)
  | s :: rest, acc, prim =>
    match env s with
    | .missing => extractLoop env rest acc prim
    | .parseFailed _ => extractLoop env rest acc prim
    | .parsed p => extractLoop env rest (acc.merge p) (optOr prim (some s))

/-- The default background literal `"#ffffff"` of extractor.rs. -/
def whiteChars : List Char := ['#', 'f', 'f', 'f', 'f', 'f', 'f']

/-- The default foreground literal `"#000000"` of extractor.rs. -/
def blackChars : List Char := ['#', '0', '0', '0', '0', '0', '0']

/-- `if combined_palette.background.is_none() { ... Color::new("#ffffff")? }`
from extractor.rs (the `?` on `Color::new` is the `Option.map`). -/
def setDefaultBackground (p : ColorPalette) : Option ColorPalette :=
  if p.background.isNone then
    (Color.new whiteChars).map (fun c => { p with background := some c })
  else some p

/-- `if combined_palette.foreground.is_none() { ... Color::new("#000000")? }`
from extractor.rs. -/
def setDefaultForeground (p : ColorPalette) : Option ColorPalette :=
  if p.foreground.isNone then
    (Color.new blackChars).map (fun c => { p with foreground := some c })
  else some p

/-- `extract_colors` from extractor.rs: fold the priority list, fail when
no source parsed, then default background/foreground. -/
def extract_colors (env : ColorSource → SourceStatus)
    (priority : List ColorSource) : Option (ColorPalette × ColorSource) :=
  match extractLoop env priority ColorPalette.default none with
  | (_, none) => none
  | (acc, some src) =>
    (setDefaultBackground acc).bind fun p1 =>
      (setDefaultForeground p1).map fun p2 => (p2, src)

/-- The palette after the background-default step (the `Option.map` of
`setDefaultBackground` never misses, since `Color::new("#ffffff")`
succeeds; this is the resulting palette). -/
def defaultBgApplied (p : ColorPalette) : ColorPalette :=
  if p.background.isNone then { p with background := some ⟨whiteChars⟩ }
  else p

/-- The palette after the foreground-default step. -/
def defaultFgApplied (p : ColorPalette) : ColorPalette :=
  if p.foreground.isNone then { p with foreground := some ⟨blackChars⟩ }
  else p

/-- Whether a source's file exists and parses. -/
def isParsed (st : SourceStatus) : Bool :=
  match st with
  | .parsed _ => true
  | _ => false

/-- The palette of a source, when it parses. -/
def parsedPalette (env : ColorSource → SourceStatus) (s : ColorSource) :
    Option ColorPalette :=
  match env s with
  | .parsed p => some p
  | _ => none

/-- The palettes of the successfully parsed sources, in priority order. -/
def parsedPalettes (env : ColorSource → SourceStatus)
    (priority : List ColorSource) : List ColorPalette :=
  priority.filterMap (parsedPalette env)

/-- The first source of the priority list whose file parses. -/
def firstParsedSource (env : ColorSource → SourceStatus) :
    List ColorSource → Option ColorSource
  | [] => none
  | s :: rest =>
    if isParsed (env s) then some s else firstParsedSource env rest

/-- The first set value in a list of optional values. -/
def firstSome {α : Type} : List (Option α) → Option α
  | [] => none
  | o :: rest => optOr o (firstSome rest)

/-! ## Paths (std::path::Path, modelled as strings) -/

/-- `Path::join` (the joined components never start with '/' here). -/
def pathJoin (dir file : String) : String := dir ++ "/" ++ file

/-! ## generator.rs -/

/-- `ProgramConfig` from config.rs (the variables map as an assoc list). -/
structure ProgramConfig where
  name : String
  enabled : Bool
  output_file : String
  template : String
  vars : List (String × String)
deriving DecidableEq, Repr

/-- `Config` from config.rs (paths as strings). -/
structure Config where
  watch_path : String
  programs : List ProgramConfig
  color_priority : List String
  generated_themes_dir : String
  auto_activate : Bool
  create_backups : Bool
  auto_symlink : Bool
deriving Repr

/-- `Config::enabled_programs`. -/
def Config.enabled_programs (c : Config) : List ProgramConfig :=
  c.programs.filter (fun p => p.enabled)

/-- `Generator::parse_color_priority`: unknown names are dropped with a
warning. -/
def parse_color_priority (c : Config) : List ColorSource :=
  c.color_priority.filterMap fun s =>
    match s with
    | "alacritty.toml" => some ColorSource.Alacritty
    | "btop.theme" => some ColorSource.Btop
    | "custom_theme.json" => some ColorSource.CustomJson
    | _ => none

/-- `InstalledProgram` from detector.rs. -/
structure InstalledProgram where
  name : String
  theme_dir : String
  config_file : Option String
  is_installed : Bool
  cli_available : Bool
  cli_path : Option String
deriving DecidableEq, Repr

/-- `ActivationResult` from activator.rs. -/
structure ActivationResult where
  program : String
  success : Bool
  message : String
deriving DecidableEq, Repr

/-- `GenerationResult` from generator.rs. -/
structure GenerationResult where
  program : String
  output_file : String
  success : Bool
  message : String
deriving DecidableEq, Repr

/-- The effectful leaves used by generator.rs, as a read-only
environment: the initial filesystem, the Tera renderer (templates.rs),
directory creation, file writes/reads/removals, symlinking, program
detection (detector.rs) and activation (activator.rs).  A `Bool` models
an operation whose Rust error is ignored at the call site; an
`Except String _` models one whose error propagates with `?`. -/
structure GenEnv where
  sourceStatus : ColorSource → SourceStatus
  fileExists : String → Bool
  render : String → ColorPalette → List (String × String) →
    Except String String
  write : String → String → Except String Unit
  createDir : String → Except String Unit
  readToString : String → Except String String
  symlink : String → String → Except String Unit
  removeOk : String → Bool
  detect : String → Option InstalledProgram
  activateOmarcord : InstalledProgram → Except String ActivationResult
  activateOmarchify : InstalledProgram → Except String ActivationResult
  homeDir : String

/-- The filesystem mutations a generator run has performed so far:
paths written (with the written content) and paths removed. -/
structure FsView where
  written : List (String × String)
  removed : List String
deriving DecidableEq, Repr

/-- `Path::exists` as seen through the run's own mutations. -/
def viewExists (env : GenEnv) (v : FsView) (p : String) : Bool :=
  if (v.written.map Prod.fst).contains p then true
  else if v.removed.contains p then false
  else env.fileExists p

/-- `Generator::generate_for_program` from generator.rs: skip when the
output exists, else render then write, converting each failure into a
failed `GenerationResult` carrying the error message. -/
def generate_for_program (env : GenEnv) (v : FsView) (theme_dir : String)
    (palette : ColorPalette) (prog : ProgramConfig) :
    GenerationResult × FsView :=
  let output_path := pathJoin theme_dir prog.output_file
  if viewExists env v output_path then
    (⟨prog.name, output_path, true, "File already exists (skipped)"⟩, v)
  else
    match env.render prog.template palette prog.vars with
    | .ok content =>
      match env.write output_path content with
      | .ok _ =>
        (⟨prog.name, output_path, true, "Generated successfully"⟩,
         ⟨(output_path, content) :: v.written,
          v.removed.filter (fun q => q ≠ output_path)⟩)
      | .error e =>
        (⟨prog.name, output_path, false, "Write error: " ++ e⟩, v)
    | .error e =>
      (⟨prog.name, output_path, false, "Template error: " ++ e⟩, v)

/-- The `for program in enabled_programs` loop of
`Generator::generate_missing_files`. -/
def runPrograms (env : GenEnv) (theme_dir : String)
    (palette : ColorPalette) :
    List ProgramConfig → FsView → List GenerationResult × FsView
  | [], v => ([], v)
  | p :: rest, v =>
    let rv := generate_for_program env v theme_dir palette p
    let rs := runPrograms env theme_dir palette rest rv.2
    (rv.1 :: rs.1, rs.2)

/-- `Generator::generate_missing_files` from generator.rs. -/
def generate_missing_files (env : GenEnv) (cfg : Config)
    (theme_dir : String) :
    Except String (List GenerationResult × FsView) :=
  match extract_colors env.sourceStatus (parse_color_priority cfg) with
  | none => .error ("Failed to extract colors from " ++ theme_dir)
  | some (palette, _) =>
    .ok (runPrograms env theme_dir palette cfg.enabled_programs ⟨[], []⟩)

/-- The `for program in enabled_programs` loop of
`Generator::regenerate_all_files`: delete an existing output first
(a failed delete is only warned about), then generate. -/
def regenLoop (env : GenEnv) (theme_dir : String)
    (palette : ColorPalette) :
    List ProgramConfig → FsView → List GenerationResult × FsView
  | [], v => ([], v)
  | p :: rest, v =>
    let output_path := pathJoin theme_dir p.output_file
    let v1 :=
      if viewExists env v output_path then
        if env.removeOk output_path then
          (⟨v.written.filter (fun q => q.1 ≠ output_path),
            output_path :: v.removed⟩ : FsView)
        else v
      else v
    let rv := generate_for_program env v1 theme_dir palette p
    let rs := regenLoop env theme_dir palette rest rv.2
    (rv.1 :: rs.1, rs.2)

/-- `Generator::regenerate_all_files` from generator.rs. -/
def regenerate_all_files (env : GenEnv) (cfg : Config)
    (theme_dir : String) :
    Except String (List GenerationResult × FsView) :=
  match extract_colors env.sourceStatus (parse_color_priority cfg) with
  | none => .error ("Failed to extract colors from " ++ theme_dir)
  | some (palette, _) =>
    .ok (regenLoop env theme_dir palette cfg.enabled_programs ⟨[], []⟩)

/-- anyhow `Context::context`: decorate the error of a fallible step. -/
def mapContext {α : Type} (x : Except String α) (ctx : String) :
    Except String α :=
  match x with
  | .ok a => .ok a
  | .error e => .error (ctx ++ ": " ++ e)

/-- `Generator::deploy_omarcord` from generator.rs.  Every `?` of the
Rust body is a monadic bind, so the first failing step aborts the
deployment of this target with its error. -/
def deploy_omarcord (env : GenEnv) (cfg : Config)
    (palette : ColorPalette) (prog : ProgramConfig)
    (installed : InstalledProgram) : Except String Unit := do
  let content ← mapContext
    (env.render prog.template palette prog.vars)
    "Failed to render Omarcord template"
  let _ ← env.createDir cfg.generated_themes_dir
  let _ ← env.write (pathJoin cfg.generated_themes_dir prog.output_file)
    content
  let vencord_theme_file := pathJoin installed.theme_dir prog.output_file
  let _ ←
    (if env.fileExists vencord_theme_file && cfg.create_backups then
      env.createDir (pathJoin env.homeDir ".config/omarchy-themes/backups")
    else .ok ())
  let _ ← env.write vencord_theme_file content
  if cfg.auto_activate then do
    let _ ← env.activateOmarcord installed
    pure ()
  else pure ()

/-- `Generator::deploy_omarchify` from generator.rs. -/
def deploy_omarchify (env : GenEnv) (cfg : Config) (theme_dir : String)
    (palette : ColorPalette) (prog : ProgramConfig)
    (installed : InstalledProgram) : Except String Unit := do
  let base_file_path :=
    pathJoin env.homeDir "programming/omarchy-theme-gen/Omarchify/text/color.ini"
  let base_content ←
    (if env.fileExists base_file_path then
      mapContext (env.readToString base_file_path)
        ("Failed to read base color.ini from " ++ base_file_path)
    else .ok "; Omarchify color schemes\n\n")
  let omarchify_section ← mapContext
    (env.render "omarchify-colors" palette prog.vars)
    "Failed to render Omarchify color section"
  let combined := base_content ++ "\n" ++ omarchify_section
  let _ ← env.write (pathJoin theme_dir prog.output_file) combined
  let _ ←
    (if cfg.auto_symlink then do
      let spicetify_text_dir := pathJoin installed.theme_dir "text"
      let _ ← env.createDir spicetify_text_dir
      env.symlink (pathJoin cfg.watch_path prog.output_file)
        (pathJoin spicetify_text_dir "color.ini")
    else .ok ())
  if cfg.auto_activate then do
    let _ ← env.activateOmarchify installed
    pure ()
  else pure ()

/-- The `for program_config in enabled_programs` loop of
`Generator::generate_and_deploy`: undetected programs are skipped, but a
deploy error propagates with `?` and ends the loop. -/
def deployLoop (env : GenEnv) (cfg : Config) (theme_dir : String)
    (palette : ColorPalette) : List ProgramConfig → Except String Unit
  | [] => .ok ()
  | prog :: rest =>
    match env.detect prog.name with
    | none => deployLoop env cfg theme_dir palette rest
    | some installed =>
      match prog.name with
      | "omarcord" =>
        (deploy_omarcord env cfg palette prog installed).bind fun _ =>
          deployLoop env cfg theme_dir palette rest
      | "omarchify" =>
        (deploy_omarchify env cfg theme_dir palette prog installed).bind
          fun _ => deployLoop env cfg theme_dir palette rest
      | _ => deployLoop env cfg theme_dir palette rest

/-- `Generator::generate_and_deploy` from generator.rs: the full deploy
workflow returns `()` on success and the first propagated error
otherwise; it produces no per-target outcome list. -/
def generate_and_deploy (env : GenEnv) (cfg : Config)
    (theme_dir : String) : Except String Unit :=
  match extract_colors env.sourceStatus (parse_color_priority cfg) with
  | none => .error ("Failed to extract colors from " ++ theme_dir)
  | some (palette, _) =>
    deployLoop env cfg theme_dir palette cfg.enabled_programs

/-! ## linker.rs -/

/-- A filesystem entry: regular file, directory, or symlink storing its
declared target path. -/
inductive FsEntry where
  | file
  | dir
  | symlink (target : String)
deriving DecidableEq, Repr

/-- A filesystem: a finite map from paths to entries, as an assoc list
(first binding wins). -/
def Fs := List (String × FsEntry)

instance : DecidableEq Fs := by
  unfold Fs
  infer_instance

/-- Look up the entry stored at a path (no symlink following). -/
def lookupFs (fs : Fs) (p : String) : Option FsEntry :=
  (List.find? (fun q => q.1 = p) fs).map Prod.snd

/-- Store an entry at a path, replacing any previous binding. -/
def setPath (fs : Fs) (p : String) (e : FsEntry) : Fs :=
  (p, e) :: List.filter (fun q => q.1 ≠ p) fs

/-- `fs::remove_file` / `fs::remove_dir_all`: drop the binding. -/
def removePath (fs : Fs) (p : String) : Fs :=
  List.filter (fun q => q.1 ≠ p) fs

/-- `Path::exists` follows symlinks; a chain longer than the fuel (a
cycle) does not resolve, like ELOOP in the kernel. -/
def resolveExists (fs : Fs) : Nat → String → Bool
  | 0, _ => false
  | fuel + 1, p =>
    match lookupFs fs p with
    | none => false
    | some .file => true
    | some .dir => true
    | some (.symlink t) => resolveExists fs fuel t

/-- `Path::exists`. -/
def pathExists (fs : Fs) (p : String) : Bool :=
  resolveExists fs (List.length fs + 1) p

/-- `Path::is_symlink` (no following). -/
def isSymlinkAt (fs : Fs) (p : String) : Bool :=
  match lookupFs fs p with
  | some (.symlink _) => true
  | _ => false

/-- `fs::read_link`. -/
def readLinkFs (fs : Fs) (p : String) : Option String :=
  match lookupFs fs p with
  | some (.symlink t) => some t
  | _ => none

/-- `LinkResult` from linker.rs. -/
structure LinkResult where
  program : String
  target_path : String
  success : Bool
  message : String
deriving DecidableEq, Repr

/-- `SymlinkManager` from linker.rs (the backup timestamp is a fixed
string of the run). -/
structure SymlinkManager where
  source_dir : String
  backup_dir : String
  create_backups : Bool
  timestamp : String
deriving DecidableEq, Repr

/-- `Path::file_name`: the last '/'-separated component. -/
def fileName (p : String) : String :=
  String.mk ((p.data.reverse.takeWhile (fun c => c ≠ '/')).reverse)

/-- `SymlinkManager::backup_existing`: copy the entry under a
timestamped name in the backup directory. -/
def backupExisting (m : SymlinkManager) (fs : Fs) (p : String) : Fs :=
  match lookupFs fs p with
  | some e =>
    setPath fs (pathJoin m.backup_dir (fileName p ++ "_" ++ m.timestamp)) e
  | none => fs

/-- `SymlinkManager::create_symlink` from linker.rs, over the `Fs`
model.  The filesystem primitives (remove, symlink, backup copy) are
modelled as succeeding, so the Rust `Result` wrapper is dropped and the
returned `LinkResult` carries the reported outcome. -/
def create_symlink (m : SymlinkManager) (fs : Fs)
    (prog : InstalledProgram) (source_filename : String) :
    LinkResult × Fs :=
  let source_path := pathJoin m.source_dir source_filename
  let target_path := pathJoin prog.theme_dir "omarchy-theme"
  if ¬ (pathExists fs source_path = true) then
    (⟨prog.name, target_path, false,
      "Source file not found: " ++ source_path⟩, fs)
  else if pathExists fs target_path || isSymlinkAt fs target_path then
    match readLinkFs fs target_path with
    | some link_target =>
      if link_target = source_path then
        (⟨prog.name, target_path, true, "Symlink already exists"⟩, fs)
      else
        (⟨prog.name, target_path, true, "Symlink created successfully"⟩,
         setPath (removePath fs target_path) target_path
           (.symlink source_path))
    | none =>
      let fs1 := if m.create_backups then backupExisting m fs target_path
        else fs
      (⟨prog.name, target_path, true, "Symlink created successfully"⟩,
       setPath (removePath fs1 target_path) target_path
         (.symlink source_path))
  else
    (⟨prog.name, target_path, true, "Symlink created successfully"⟩,
     setPath fs target_path (.symlink source_path))

/-! ## Basic lemmas -/

theorem optOr_none {α : Type} (a : Option α) : optOr a none = a := by
  cases a <;> rfl

theorem optOr_assoc {α : Type} (a b c : Option α) :
    optOr (optOr a b) c = optOr a (optOr b c) := by
  cases a <;> rfl

theorem mergeField_eq_optOr (a b : Option Color) :
    mergeField a b = optOr a b := by
  cases a <;> cases b <;> rfl

theorem lookupCustom_cons (p : String × Color) (m : List (String × Color))
    (k : String) :
    lookupCustom (p :: m) k =
      if p.1 = k then some p.2 else lookupCustom m k := by
  by_cases h : p.1 = k <;> simp [lookupCustom, List.find?_cons, h]

theorem lookupCustom_append_single (m : List (String × Color))
    (k' : String) (v : Color) (k : String) :
    lookupCustom (m ++ [(k', v)]) k =
      optOr (lookupCustom m k) (if k' = k then some v else none) := by
  induction m with
  | nil =>
    by_cases h : k' = k <;> simp [lookupCustom, List.find?_cons, h, optOr]
  | cons p rest ih =>
    by_cases h : p.1 = k
    · simp [List.cons_append, lookupCustom_cons, h, optOr]
    · simp [List.cons_append, lookupCustom_cons, h, ih]

theorem any_key_eq_isSome (m : List (String × Color)) (k : String) :
    (m.any (fun p => p.1 = k)) = (lookupCustom m k).isSome := by
  induction m with
  | nil => rfl
  | cons p rest ih =>
    by_cases h : p.1 = k <;> simp [lookupCustom_cons, h, ih]

theorem lookupCustom_orInsert (m : List (String × Color)) (k' : String)
    (v : Color) (k : String) :
    lookupCustom (orInsert m k' v) k =
      optOr (lookupCustom m k) (if k' = k then some v else none) := by
  unfold orInsert
  by_cases h : m.any (fun p => p.1 = k') = true
  · rw [if_pos h]
    by_cases hk : k' = k
    · subst hk
      rw [any_key_eq_isSome] at h
      rcases ho : lookupCustom m k' with _ | w
      · rw [ho] at h; simp at h
      · simp [optOr]
    · simp [hk, optOr_none]
  · rw [if_neg h]
    exact lookupCustom_append_single m k' v k

theorem lookupCustom_foldl (b : List (String × Color)) :
    ∀ a k, lookupCustom (b.foldl (fun m kv => orInsert m kv.1 kv.2) a) k =
      optOr (lookupCustom a k) (lookupCustom b k) := by
  induction b with
  | nil => intro a k; simp [lookupCustom, optOr_none]
  | cons kv rest ih =>
    intro a k
    rw [List.foldl_cons, ih, lookupCustom_orInsert, optOr_assoc,
      lookupCustom_cons]
    by_cases h : kv.1 = k <;> simp [h, optOr]

/-! ## Lemmas about ColorPalette.get and merge -/

theorem get_merge (a b : ColorPalette) (n : String) :
    (a.merge b).get n = optOr (a.get n) (b.get n) := by
  unfold ColorPalette.get
  split <;>
    simp [ColorPalette.merge, mergeField_eq_optOr, lookupCustom_foldl]

theorem get_default_none (n : String) :
    ColorPalette.default.get n = none := by
  unfold ColorPalette.get
  split <;> rfl

/-! ## Lemmas about Color.new -/

theorem dupEach_length (l : List Char) :
    (dupEach l).length = 2 * l.length := by
  induction l with
  | nil => rfl
  | cons c rest ih => simp [dupEach, ih]; omega

theorem dupEach_all (l : List Char) (p : Char → Bool)
    (h : l.all p = true) : (dupEach l).all p = true := by
  induction l with
  | nil => rfl
  | cons c rest ih =>
    rw [List.all_cons] at h
    obtain ⟨hpc, hrest⟩ := (Bool.and_eq_true _ _).mp h
    show (c :: c :: dupEach rest).all p = true
    rw [List.all_cons, List.all_cons, hpc, ih hrest]
    rfl

theorem color_new_eq (s : List Char) :
    Color.new s =
      if ((trimStartHash s).length = 3 ∨ (trimStartHash s).length = 6) ∧
          (trimStartHash s).all isAsciiHexdigit = true then
        some ⟨'#' :: (if (trimStartHash s).length = 3
          then dupEach (trimStartHash s) else trimStartHash s)⟩
      else none := by
  by_cases h3 : (trimStartHash s).length = 3
  · by_cases hx : (trimStartHash s).all isAsciiHexdigit = true
    · simp [Color.new, h3, hx]
    · simp [Color.new, h3, hx]
  · by_cases h6 : (trimStartHash s).length = 6
    · by_cases hx : (trimStartHash s).all isAsciiHexdigit = true
      · simp [Color.new, h3, h6, hx]
      · simp [Color.new, h3, h6, hx]
    · simp [Color.new, h3, h6]

/-! ## Claims C2, C3, C7, C10 -/

/-- C2 counterexample.  The claim says construction succeeds exactly
when, after removing A leading '#', the remainder is 3 or 6 hex digits.
On the input "##fff" construction succeeds (Rust's
`trim_start_matches('#')` removes every leading '#'), although after
removing one leading '#' the remainder "#fff" is neither 3 nor 6 hex
digits. -/
theorem c2_counterexample :
    (Color.new ['#', '#', 'f', 'f', 'f']).isSome = true ∧
    ¬ (((stripOneHash ['#', '#', 'f', 'f', 'f']).length = 3 ∨
        (stripOneHash ['#', '#', 'f', 'f', 'f']).length = 6) ∧
       (stripOneHash ['#', '#', 'f', 'f', 'f']).all isAsciiHexdigit
         = true) := by
  decide

/-- C2 (amended: "a leading '#'" becomes "all leading '#' characters").
Construction succeeds exactly when, after removing all leading '#'
characters, the remainder is 3 or 6 ASCII hex digits; on success the
stored form is '#' followed by 6 hex digits, a 3-digit input is expanded
by digit duplication, and a 6-digit input is kept as is. -/
theorem c2_color_new_spec (s : List Char) :
    ((Color.new s).isSome = true ↔
      (((trimStartHash s).length = 3 ∨ (trimStartHash s).length = 6) ∧
        (trimStartHash s).all isAsciiHexdigit = true)) ∧
    (∀ c, Color.new s = some c →
      c.val.length = 7 ∧
      c.val.head? = some '#' ∧
      (c.val.drop 1).all isAsciiHexdigit = true ∧
      ((trimStartHash s).length = 3 →
        c.val = '#' :: dupEach (trimStartHash s)) ∧
      ((trimStartHash s).length = 6 →
        c.val = '#' :: trimStartHash s)) := by
  constructor
  · rw [color_new_eq s]
    by_cases hc : (((trimStartHash s).length = 3 ∨
        (trimStartHash s).length = 6) ∧
        (trimStartHash s).all isAsciiHexdigit = true)
    · simp [hc]
    · simp [hc]
  · intro c h
    rw [color_new_eq s] at h
    by_cases hc : (((trimStartHash s).length = 3 ∨
        (trimStartHash s).length = 6) ∧
        (trimStartHash s).all isAsciiHexdigit = true)
    · rw [if_pos hc] at h
      injection h with h
      subst h
      rcases hc with ⟨hlen, hx⟩
      rcases hlen with h3 | h6
      · refine ⟨?_, rfl, ?_, ?_, ?_⟩
        · simp [h3, dupEach_length]
        · simpa [h3] using dupEach_all _ _ hx
        · intro _; simp [h3]
        · intro h6; rw [h3] at h6; exact absurd h6 (by decide)
      · have hn3 : ¬ (trimStartHash s).length = 3 := by
          rw [h6]; decide
        refine ⟨?_, rfl, ?_, ?_, ?_⟩
        · simp [hn3, h6]
        · simpa [hn3] using hx
        · intro h3; exact absurd h3 hn3
        · intro _; simp [hn3]
    · rw [if_neg hc] at h
      simp at h

/-- C2 witness: the theorem applied to the 3-digit input "abc". -/
theorem c2_witness :
    (Color.new ['a', 'b', 'c']).isSome = true ∧
    (Color.mk ['#', 'a', 'a', 'b', 'b', 'c', 'c']).val.length = 7 :=
  ⟨(c2_color_new_spec ['a', 'b', 'c']).1.mpr (by decide),
   ((c2_color_new_spec ['a', 'b', 'c']).2
     ⟨['#', 'a', 'a', 'b', 'b', 'c', 'c']⟩ (by decide)).1⟩

/-- C3: merging palette B into palette A never overwrites a slot already
set in A, and sets every slot empty in A to B's value (for every slot
name, the 21 fixed slots and every custom key alike; `merge` is a total
Lean function, hence pure and never failing). -/
theorem c3_merge_first_writer_wins (a b : ColorPalette) (n : String) :
    ((a.get n).isSome = true → (a.merge b).get n = a.get n) ∧
    (a.get n = none → (a.merge b).get n = b.get n) := by
  constructor
  · intro h
    rw [get_merge]
    rcases ho : a.get n with _ | v
    · rw [ho] at h; simp at h
    · rfl
  · intro h
    rw [get_merge, h]
    rfl

/-- C3 witness: the theorem applied to two concrete palettes at the slot
"background" (empty in A, set in B) and the custom key "title" (set in
A, also set in B). -/
theorem c3_witness :
    (ColorPalette.default.merge
      { ColorPalette.default with
        background := some ⟨whiteChars⟩ }).get "background" =
      some ⟨whiteChars⟩ ∧
    (({ ColorPalette.default with
        custom := [("title", ⟨whiteChars⟩)] }).merge
      { ColorPalette.default with
        custom := [("title", ⟨blackChars⟩)] }).get "title" =
      some ⟨whiteChars⟩ :=
  ⟨((c3_merge_first_writer_wins ColorPalette.default
      { ColorPalette.default with background := some ⟨whiteChars⟩ }
      "background").2 (by decide)).trans (by decide),
   ((c3_merge_first_writer_wins
      { ColorPalette.default with custom := [("title", ⟨whiteChars⟩)] }
      { ColorPalette.default with custom := [("title", ⟨blackChars⟩)] }
      "title").1 (by decide)).trans (by decide)⟩

/-- C7 counterexample.  The claim says that whenever the lookup does not
find a color in a standard slot for n, it returns the custom-mapping
entry for n.  For n = "background" on a palette whose background slot is
unset but whose custom map binds "background", `get` finds no color in
the standard slot yet returns `none`, not the custom entry: the
fall-through happens only for names that are not standard slot names. -/
theorem c7_counterexample :
    (ColorPalette.get
      { ColorPalette.default with
        custom := [("background", ⟨whiteChars⟩)] } "background" = none) ∧
    lookupCustom [("background", (⟨whiteChars⟩ : Color))] "background" =
      some ⟨whiteChars⟩ ∧
    ColorPalette.get
      { ColorPalette.default with
        custom := [("background", ⟨whiteChars⟩)] } "background" ≠
      lookupCustom [("background", (⟨whiteChars⟩ : Color))]
        "background" := by
  decide

/-- C7 (amended): `get` falls through to the custom map exactly for
names that are not one of the 21 standard slot names; for a standard
name it returns that slot's value (None when unset) and never consults
the custom map. -/
theorem c7_get_fallthrough (p : ColorPalette) (n : String) :
    (isStandardName n = false → p.get n = lookupCustom p.custom n) ∧
    (isStandardName n = true →
      ∀ m, ColorPalette.get { p with custom := m } n = p.get n) := by
  constructor
  · intro h
    unfold ColorPalette.get
    unfold isStandardName at h
    split at h <;> simp_all
  · intro h m
    unfold ColorPalette.get
    split <;> try rfl
    exfalso
    unfold isStandardName at h
    split at h <;> simp_all

/-- C7 witness: the theorem applied to the default palette at the
non-standard name "title" and the standard name "red". -/
theorem c7_witness :
    ColorPalette.default.get "title" =
      lookupCustom ColorPalette.default.custom "title" ∧
    ColorPalette.get
      { ColorPalette.default with
        custom := [("red", ⟨whiteChars⟩)] } "red" =
      ColorPalette.default.get "red" :=
  ⟨(c7_get_fallthrough ColorPalette.default "title").1 (by decide),
   (c7_get_fallthrough ColorPalette.default "red").2 (by decide)
     [("red", ⟨whiteChars⟩)]⟩

/-- C10: Color equality is letter-case-sensitive: a 6-digit input is
stored with its case unchanged, and the same RGB value written
"#FF0000" and "#ff0000" yields two Colors that both construct
successfully and compare unequal. -/
theorem c10_color_case_sensitive :
    (∀ s c, (trimStartHash s).length = 6 → Color.new s = some c →
      c.val = '#' :: trimStartHash s) ∧
    Color.new ['#', 'F', 'F', '0', '0', '0', '0'] =
      some ⟨['#', 'F', 'F', '0', '0', '0', '0']⟩ ∧
    Color.new ['#', 'f', 'f', '0', '0', '0', '0'] =
      some ⟨['#', 'f', 'f', '0', '0', '0', '0']⟩ ∧
    Color.mk ['#', 'F', 'F', '0', '0', '0', '0'] ≠
      Color.mk ['#', 'f', 'f', '0', '0', '0', '0'] := by
  refine ⟨?_, by decide, by decide, by decide⟩
  intro s c h6 hc
  rw [color_new_eq s] at hc
  by_cases hcond : (((trimStartHash s).length = 3 ∨
      (trimStartHash s).length = 6) ∧
      (trimStartHash s).all isAsciiHexdigit = true)
  · rw [if_pos hcond] at hc
    injection hc with hc
    subst hc
    have hn3 : ¬ (trimStartHash s).length = 3 := by
      rw [h6]; decide
    simp [hn3]
  · rw [if_neg hcond] at hc
    simp at hc

/-- C10 witness: the case-preservation half applied to the uppercase
input. -/
theorem c10_witness :
    (Color.mk ['#', 'F', 'F', '0', '0', '0', '0']).val =
      '#' :: trimStartHash ['#', 'F', 'F', '0', '0', '0', '0'] :=
  c10_color_case_sensitive.1 ['#', 'F', 'F', '0', '0', '0', '0']
    ⟨['#', 'F', 'F', '0', '0', '0', '0']⟩ (by decide) (by decide)

/-! ## Lemmas about the extraction pipeline -/

theorem get_update_background (p : ColorPalette) (x : Option Color)
    (n : String) :
    ColorPalette.get { p with background := x } n =
      if n = "background" then x else p.get n := by
  unfold ColorPalette.get
  split <;> simp_all

theorem get_update_foreground (p : ColorPalette) (x : Option Color)
    (n : String) :
    ColorPalette.get { p with foreground := x } n =
      if n = "foreground" then x else p.get n := by
  unfold ColorPalette.get
  split <;> simp_all

theorem get_foldl_merge (ps : List ColorPalette) :
    ∀ (acc : ColorPalette) (n : String),
      (ps.foldl ColorPalette.merge acc).get n =
        optOr (acc.get n) (firstSome (ps.map (fun p => p.get n))) := by
  induction ps with
  | nil => intro acc n; simp [firstSome, optOr_none]
  | cons p rest ih =>
    intro acc n
    rw [List.foldl_cons, ih, get_merge, optOr_assoc]
    simp [firstSome]

theorem extractLoop_spec (env : ColorSource → SourceStatus)
    (priority : List ColorSource) :
    ∀ (acc : ColorPalette) (prim : Option ColorSource),
      extractLoop env priority acc prim =
        ((parsedPalettes env priority).foldl ColorPalette.merge acc,
         optOr prim (firstParsedSource env priority)) := by
  induction priority with
  | nil =>
    intro acc prim
    simp [extractLoop, parsedPalettes, firstParsedSource, optOr_none]
  | cons s rest ih =>
    intro acc prim
    cases hs : env s with
    | missing =>
      simp [extractLoop, hs, ih, parsedPalettes, List.filterMap_cons,
        parsedPalette, firstParsedSource, isParsed]
    | parseFailed m =>
      simp [extractLoop, hs, ih, parsedPalettes, List.filterMap_cons,
        parsedPalette, firstParsedSource, isParsed]
    | parsed p =>
      simp only [extractLoop, hs, ih, parsedPalettes,
        List.filterMap_cons, parsedPalette, firstParsedSource, isParsed,
        List.foldl_cons, Prod.mk.injEq, if_true]
      refine ⟨trivial, ?_⟩
      rw [optOr_assoc]
      rfl

theorem setDefaultBackground_eq (p : ColorPalette) :
    setDefaultBackground p = some (defaultBgApplied p) := by
  have hw : Color.new whiteChars = some ⟨whiteChars⟩ := by decide
  unfold setDefaultBackground defaultBgApplied
  by_cases hb : p.background.isNone <;> simp [hb, hw]

theorem setDefaultForeground_eq (p : ColorPalette) :
    setDefaultForeground p = some (defaultFgApplied p) := by
  have hk : Color.new blackChars = some ⟨blackChars⟩ := by decide
  unfold setDefaultForeground defaultFgApplied
  by_cases hf : p.foreground.isNone <;> simp [hf, hk]

theorem extract_colors_eq (env : ColorSource → SourceStatus)
    (priority : List ColorSource) :
    extract_colors env priority =
      match firstParsedSource env priority with
      | none => none
      | some src =>
        some (defaultFgApplied (defaultBgApplied
          ((parsedPalettes env priority).foldl ColorPalette.merge
            ColorPalette.default)), src) := by
  unfold extract_colors
  rw [extractLoop_spec]
  cases firstParsedSource env priority with
  | none => rfl
  | some src =>
    show (setDefaultBackground _).bind _ = _
    rw [setDefaultBackground_eq]
    show (setDefaultForeground _).map _ = _
    rw [setDefaultForeground_eq]
    rfl

theorem defaultBgApplied_background (p : ColorPalette) :
    (defaultBgApplied p).background =
      optOr p.background (some ⟨whiteChars⟩) := by
  unfold defaultBgApplied
  rcases hb : p.background <;> simp [hb, optOr]

theorem defaultBgApplied_foreground (p : ColorPalette) :
    (defaultBgApplied p).foreground = p.foreground := by
  unfold defaultBgApplied
  split <;> rfl

theorem defaultFgApplied_foreground (p : ColorPalette) :
    (defaultFgApplied p).foreground =
      optOr p.foreground (some ⟨blackChars⟩) := by
  unfold defaultFgApplied
  rcases hf : p.foreground <;> simp [hf, optOr]

theorem defaultFgApplied_background (p : ColorPalette) :
    (defaultFgApplied p).background = p.background := by
  unfold defaultFgApplied
  split <;> rfl

theorem get_defaultBgApplied_of_some (p : ColorPalette) (n : String)
    (v : Color) (h : p.get n = some v) :
    (defaultBgApplied p).get n = some v := by
  unfold defaultBgApplied
  split
  · rename_i hb
    rw [get_update_background]
    by_cases hn : n = "background"
    · subst hn
      have hbg : p.background = some v := h
      rw [hbg] at hb
      simp at hb
    · rw [if_neg hn]
      exact h
  · exact h

theorem get_defaultFgApplied_of_some (p : ColorPalette) (n : String)
    (v : Color) (h : p.get n = some v) :
    (defaultFgApplied p).get n = some v := by
  unfold defaultFgApplied
  split
  · rename_i hf
    rw [get_update_foreground]
    by_cases hn : n = "foreground"
    · subst hn
      have hfg : p.foreground = some v := h
      rw [hfg] at hf
      simp at hf
    · rw [if_neg hn]
      exact h
  · exact h

/-! ## Claims C4, C5, C6 -/

/-- C4: a successful extraction merges every successfully parsed source
in priority order with first-writer-wins semantics — for every slot
name, the resulting value is the value of the priority-first parsed
source that sets it (so an earlier source's value beats a later one's,
and a slot set only by a later source gets that source's value) — and
the first source that parses successfully is returned as the primary
source. -/
theorem c4_extraction_priority_merge (env : ColorSource → SourceStatus)
    (priority : List ColorSource) (pal : ColorPalette)
    (src : ColorSource)
    (h : extract_colors env priority = some (pal, src)) :
    firstParsedSource env priority = some src ∧
    (∀ n v, firstSome ((parsedPalettes env priority).map
        (fun p => p.get n)) = some v → pal.get n = some v) := by
  rw [extract_colors_eq] at h
  cases hfp : firstParsedSource env priority with
  | none => rw [hfp] at h; exact absurd h (by simp)
  | some s0 =>
    rw [hfp] at h
    have hinj := Option.some.inj h
    rw [Prod.mk.injEq] at hinj
    obtain ⟨hpal, hsrc⟩ := hinj
    constructor
    · exact congrArg some hsrc
    · intro n v hv
      have hacc : ((parsedPalettes env priority).foldl ColorPalette.merge
          ColorPalette.default).get n = some v := by
        rw [get_foldl_merge, get_default_none, hv]
        rfl
      have hres := get_defaultFgApplied_of_some _ n v
        (get_defaultBgApplied_of_some _ n v hacc)
      rw [← hpal]
      exact hres

/-- C4 witness: two parsed sources; the earlier wins on "red"
(set by both) and the primary source is the earlier one. -/
theorem c4_witness :
    firstParsedSource
      (fun s => match s with
        | ColorSource.Alacritty => SourceStatus.parsed
            { ColorPalette.default with
              background := some ⟨whiteChars⟩, red := some ⟨whiteChars⟩ }
        | ColorSource.Btop => SourceStatus.parsed
            { ColorPalette.default with
              red := some ⟨blackChars⟩, cursor := some ⟨blackChars⟩ }
        | ColorSource.CustomJson => SourceStatus.missing)
      [ColorSource.Alacritty, ColorSource.Btop] =
      some ColorSource.Alacritty ∧
    ({ ColorPalette.default with
        background := some ⟨whiteChars⟩,
        foreground := some ⟨blackChars⟩,
        red := some ⟨whiteChars⟩,
        cursor := some ⟨blackChars⟩ } : ColorPalette).get "red" =
      some ⟨whiteChars⟩ :=
  have h : extract_colors
      (fun s => match s with
        | ColorSource.Alacritty => SourceStatus.parsed
            { ColorPalette.default with
              background := some ⟨whiteChars⟩, red := some ⟨whiteChars⟩ }
        | ColorSource.Btop => SourceStatus.parsed
            { ColorPalette.default with
              red := some ⟨blackChars⟩, cursor := some ⟨blackChars⟩ }
        | ColorSource.CustomJson => SourceStatus.missing)
      [ColorSource.Alacritty, ColorSource.Btop] =
      some ({ ColorPalette.default with
        background := some ⟨whiteChars⟩,
        foreground := some ⟨blackChars⟩,
        red := some ⟨whiteChars⟩,
        cursor := some ⟨blackChars⟩ }, ColorSource.Alacritty) := by decide
  ⟨(c4_extraction_priority_merge _ _ _ _ h).1,
   (c4_extraction_priority_merge _ _ _ _ h).2 "red" ⟨whiteChars⟩
     (by decide)⟩

/-- C5: extraction fails (returns nothing, the NoColorSource error) if
and only if no source of the priority list parsed successfully; missing
files and parse failures just mean that source yields nothing. -/
theorem c5_no_color_source (env : ColorSource → SourceStatus)
    (priority : List ColorSource) :
    (extract_colors env priority = none ↔
      firstParsedSource env priority = none) ∧
    (firstParsedSource env priority = none ↔
      ∀ s ∈ priority, isParsed (env s) = false) := by
  constructor
  · rw [extract_colors_eq]
    cases hfp : firstParsedSource env priority <;> simp
  · induction priority with
    | nil => simp [firstParsedSource]
    | cons s rest ih =>
      by_cases hs : isParsed (env s) = true
      · simp [firstParsedSource, hs]
      · simp only [Bool.not_eq_true] at hs
        simp [firstParsedSource, hs, ih]

/-- C5 witness: a missing file and a parse failure both yield no
palette. -/
theorem c5_witness :
    extract_colors (fun _ => SourceStatus.missing)
      [ColorSource.Alacritty] = none ∧
    extract_colors (fun _ => SourceStatus.parseFailed "bad")
      [ColorSource.Btop, ColorSource.CustomJson] = none :=
  ⟨(c5_no_color_source (fun _ => SourceStatus.missing)
      [ColorSource.Alacritty]).1.mpr (by decide),
   (c5_no_color_source (fun _ => SourceStatus.parseFailed "bad")
      [ColorSource.Btop, ColorSource.CustomJson]).1.mpr (by decide)⟩

/-- C6: on a successful extraction, if no parsed source set the
background and none set the foreground, the returned palette defaults
them to #ffffff and #000000 respectively; a background or foreground
set by some source is kept (the priority-first value) and not replaced
by the defaults. -/
theorem c6_extraction_defaults (env : ColorSource → SourceStatus)
    (priority : List ColorSource) (pal : ColorPalette)
    (src : ColorSource)
    (h : extract_colors env priority = some (pal, src)) :
    (firstSome ((parsedPalettes env priority).map
        (fun p => p.background)) = none →
      firstSome ((parsedPalettes env priority).map
        (fun p => p.foreground)) = none →
      pal.background = some ⟨whiteChars⟩ ∧
        pal.foreground = some ⟨blackChars⟩) ∧
    (∀ v, firstSome ((parsedPalettes env priority).map
        (fun p => p.background)) = some v → pal.background = some v) ∧
    (∀ v, firstSome ((parsedPalettes env priority).map
        (fun p => p.foreground)) = some v → pal.foreground = some v) := by
  rw [extract_colors_eq] at h
  cases hfp : firstParsedSource env priority with
  | none => rw [hfp] at h; exact absurd h (by simp)
  | some s0 =>
    rw [hfp] at h
    have hinj := Option.some.inj h
    rw [Prod.mk.injEq] at hinj
    obtain ⟨hpal, hsrc⟩ := hinj
    have hfunb : (fun p : ColorPalette => p.get "background") =
      (fun p : ColorPalette => p.background) := rfl
    have hfunf : (fun p : ColorPalette => p.get "foreground") =
      (fun p : ColorPalette => p.foreground) := rfl
    refine ⟨?_, ?_, ?_⟩
    · intro hbg hfg
      have haccb : ((parsedPalettes env priority).foldl
          ColorPalette.merge ColorPalette.default).background = none := by
        have hg := get_foldl_merge (parsedPalettes env priority)
          ColorPalette.default "background"
        rw [hfunb, get_default_none, hbg] at hg
        exact hg
      have haccf : ((parsedPalettes env priority).foldl
          ColorPalette.merge ColorPalette.default).foreground = none := by
        have hg := get_foldl_merge (parsedPalettes env priority)
          ColorPalette.default "foreground"
        rw [hfunf, get_default_none, hfg] at hg
        exact hg
      rw [← hpal]
      constructor
      · rw [defaultFgApplied_background, defaultBgApplied_background,
          haccb]
        rfl
      · rw [defaultFgApplied_foreground, defaultBgApplied_foreground,
          haccf]
        rfl
    · intro v hv
      have haccb : ((parsedPalettes env priority).foldl
          ColorPalette.merge ColorPalette.default).background = some v := by
        have hg := get_foldl_merge (parsedPalettes env priority)
          ColorPalette.default "background"
        rw [hfunb, get_default_none, hv] at hg
        exact hg
      rw [← hpal, defaultFgApplied_background,
        defaultBgApplied_background, haccb]
      rfl
    · intro v hv
      have haccf : ((parsedPalettes env priority).foldl
          ColorPalette.merge ColorPalette.default).foreground = some v := by
        have hg := get_foldl_merge (parsedPalettes env priority)
          ColorPalette.default "foreground"
        rw [hfunf, get_default_none, hv] at hg
        exact hg
      rw [← hpal, defaultFgApplied_foreground,
        defaultBgApplied_foreground, haccf]
      rfl

/-- C6 witness: one parsed source that sets only "red"; the extracted
palette gets the white background and black foreground defaults. -/
theorem c6_witness :
    ({ ColorPalette.default with
        background := some ⟨whiteChars⟩,
        foreground := some ⟨blackChars⟩,
        red := some ⟨whiteChars⟩ } : ColorPalette).background =
      some ⟨whiteChars⟩ ∧
    ({ ColorPalette.default with
        background := some ⟨whiteChars⟩,
        foreground := some ⟨blackChars⟩,
        red := some ⟨whiteChars⟩ } : ColorPalette).foreground =
      some ⟨blackChars⟩ :=
  have h : extract_colors
      (fun s => match s with
        | ColorSource.Alacritty => SourceStatus.parsed
            { ColorPalette.default with red := some ⟨whiteChars⟩ }
        | _ => SourceStatus.missing)
      [ColorSource.Alacritty, ColorSource.Btop] =
      some ({ ColorPalette.default with
        background := some ⟨whiteChars⟩,
        foreground := some ⟨blackChars⟩,
        red := some ⟨whiteChars⟩ }, ColorSource.Alacritty) := by decide
  (c6_extraction_defaults _ _ _ _ h).1 (by decide) (by decide)

/-! ## Lemmas about the symlink manager -/

theorem lookupFs_setPath_self (fs : Fs) (p : String) (e : FsEntry) :
    lookupFs (setPath fs p e) p = some e := by
  simp [lookupFs, setPath, List.find?_cons]

theorem readLinkFs_eq_some (fs : Fs) (p t : String) :
    readLinkFs fs p = some t ↔
      lookupFs fs p = some (FsEntry.symlink t) := by
  unfold readLinkFs
  cases h : lookupFs fs p with
  | none => simp
  | some e => cases e <;> simp

/-- When the source exists and the destination is already the correct
link, `create_symlink` is a no-op reporting success. -/
theorem create_symlink_noop (m : SymlinkManager) (fs : Fs)
    (prog : InstalledProgram) (f : String)
    (hsp : pathExists fs (pathJoin m.source_dir f) = true)
    (hlk : lookupFs fs (pathJoin prog.theme_dir "omarchy-theme") =
      some (FsEntry.symlink (pathJoin m.source_dir f))) :
    create_symlink m fs prog f =
      (⟨prog.name, pathJoin prog.theme_dir "omarchy-theme", true,
        "Symlink already exists"⟩, fs) := by
  simp [create_symlink, hsp, isSymlinkAt, readLinkFs, hlk]

/-- When the source exists, `create_symlink` reports success, and the
resulting filesystem either is unchanged with the destination already
the correct link, or stores the correct link at the destination. -/
theorem create_symlink_post (m : SymlinkManager) (fs : Fs)
    (prog : InstalledProgram) (f : String)
    (h1 : pathExists fs (pathJoin m.source_dir f) = true) :
    (create_symlink m fs prog f).1.success = true ∧
    (((create_symlink m fs prog f).2 = fs ∧
      lookupFs fs (pathJoin prog.theme_dir "omarchy-theme") =
        some (FsEntry.symlink (pathJoin m.source_dir f))) ∨
     (∃ fs0, (create_symlink m fs prog f).2 =
        setPath fs0 (pathJoin prog.theme_dir "omarchy-theme")
          (FsEntry.symlink (pathJoin m.source_dir f)))) := by
  by_cases hb : (pathExists fs (pathJoin prog.theme_dir "omarchy-theme")
      || isSymlinkAt fs (pathJoin prog.theme_dir "omarchy-theme")) = true
  · cases hr : readLinkFs fs (pathJoin prog.theme_dir "omarchy-theme") with
    | some lt =>
      by_cases hlt : lt = pathJoin m.source_dir f
      · rw [hlt] at hr
        have hlk := (readLinkFs_eq_some fs _ _).mp hr
        rw [create_symlink_noop m fs prog f h1 hlk]
        exact ⟨rfl, Or.inl ⟨rfl, hlk⟩⟩
      · refine ⟨?_, Or.inr
          ⟨removePath fs (pathJoin prog.theme_dir "omarchy-theme"), ?_⟩⟩ <;>
          simp [create_symlink, h1, hb, hr, hlt]
    | none =>
      refine ⟨?_, Or.inr
        ⟨removePath
          (if m.create_backups then
            backupExisting m fs (pathJoin prog.theme_dir "omarchy-theme")
          else fs) (pathJoin prog.theme_dir "omarchy-theme"), ?_⟩⟩ <;>
        simp [create_symlink, h1, hb, hr]
  · refine ⟨?_, Or.inr ⟨fs, ?_⟩⟩ <;> simp [create_symlink, h1, hb]

/-! ## Claim C8 -/

/-- C8 counterexample.  The claim quantifies over every program target
and source filename whose source file exists.  When the link destination
path coincides with the source path (theme_dir = source_dir and the
source filename is "omarchy-theme"), the first call succeeds but turns
the source into a self-referential symlink, so the second call reports
failure ("Source file not found"): success does NOT hold both times. -/
theorem c8_counterexample :
    pathExists ([("/s/omarchy-theme", FsEntry.file)] : Fs)
      (pathJoin "/s" "omarchy-theme") = true ∧
    (create_symlink ⟨"/s", "/b", false, "ts"⟩
      ([("/s/omarchy-theme", FsEntry.file)] : Fs)
      ⟨"p", "/s", none, true, false, none⟩
      "omarchy-theme").1.success = true ∧
    (create_symlink ⟨"/s", "/b", false, "ts"⟩
      (create_symlink ⟨"/s", "/b", false, "ts"⟩
        ([("/s/omarchy-theme", FsEntry.file)] : Fs)
        ⟨"p", "/s", none, true, false, none⟩
        "omarchy-theme").2
      ⟨"p", "/s", none, true, false, none⟩
      "omarchy-theme").1.success = false := by
  decide

/-- C8 (amended: the source file must still exist when the second call
is made — the first call can destroy it when the link destination lies
on the source's resolution path).  Under that hypothesis symlink
creation is idempotent: both calls report success and the filesystem
after the second call equals the filesystem after the first (the second
call is a no-op on the already-correct link). -/
theorem c8_create_symlink_idempotent (m : SymlinkManager) (fs : Fs)
    (prog : InstalledProgram) (f : String)
    (h1 : pathExists fs (pathJoin m.source_dir f) = true)
    (h2 : pathExists (create_symlink m fs prog f).2
      (pathJoin m.source_dir f) = true) :
    (create_symlink m fs prog f).1.success = true ∧
    (create_symlink m (create_symlink m fs prog f).2 prog f).1.success
      = true ∧
    (create_symlink m (create_symlink m fs prog f).2 prog f).2 =
      (create_symlink m fs prog f).2 := by
  obtain ⟨hs1, hpost⟩ := create_symlink_post m fs prog f h1
  refine ⟨hs1, ?_, ?_⟩ <;>
  · rcases hpost with ⟨hunch, hlk⟩ | ⟨fs0, hset⟩
    · rw [hunch, create_symlink_noop m fs prog f h1 hlk]
    · rw [create_symlink_noop m _ prog f h2
        (by rw [hset]; exact lookupFs_setPath_self _ _ _)]

/-- C8 witness: the theorem applied to a normal scenario (distinct
source and destination paths). -/
theorem c8_witness :
    (create_symlink ⟨"/src", "/b", false, "ts"⟩
      ([("/src/f.css", FsEntry.file)] : Fs)
      ⟨"p", "/t", none, true, false, none⟩ "f.css").1.success = true ∧
    (create_symlink ⟨"/src", "/b", false, "ts"⟩
      (create_symlink ⟨"/src", "/b", false, "ts"⟩
        ([("/src/f.css", FsEntry.file)] : Fs)
        ⟨"p", "/t", none, true, false, none⟩ "f.css").2
      ⟨"p", "/t", none, true, false, none⟩ "f.css").1.success = true ∧
    (create_symlink ⟨"/src", "/b", false, "ts"⟩
      (create_symlink ⟨"/src", "/b", false, "ts"⟩
        ([("/src/f.css", FsEntry.file)] : Fs)
        ⟨"p", "/t", none, true, false, none⟩ "f.css").2
      ⟨"p", "/t", none, true, false, none⟩ "f.css").2 =
    (create_symlink ⟨"/src", "/b", false, "ts"⟩
      ([("/src/f.css", FsEntry.file)] : Fs)
      ⟨"p", "/t", none, true, false, none⟩ "f.css").2 :=
  c8_create_symlink_idempotent ⟨"/src", "/b", false, "ts"⟩
    ([("/src/f.css", FsEntry.file)] : Fs)
    ⟨"p", "/t", none, true, false, none⟩ "f.css"
    (by decide) (by decide)

/-! ## Lemmas about the generator -/

theorem generate_for_program_program (env : GenEnv) (v : FsView)
    (theme_dir : String) (palette : ColorPalette)
    (prog : ProgramConfig) :
    (generate_for_program env v theme_dir palette prog).1.program =
      prog.name := by
  simp only [generate_for_program]
  split
  · rfl
  · split
    · split <;> rfl
    · rfl

theorem runPrograms_map_program (env : GenEnv) (theme_dir : String)
    (palette : ColorPalette) (ps : List ProgramConfig) :
    ∀ v, ((runPrograms env theme_dir palette ps v).1.map
      (fun r => r.program)) = ps.map (fun p => p.name) := by
  induction ps with
  | nil => intro v; rfl
  | cons p rest ih =>
    intro v
    simp [runPrograms, ih, generate_for_program_program]

theorem regenLoop_map_program (env : GenEnv) (theme_dir : String)
    (palette : ColorPalette) (ps : List ProgramConfig) :
    ∀ v, ((regenLoop env theme_dir palette ps v).1.map
      (fun r => r.program)) = ps.map (fun p => p.name) := by
  induction ps with
  | nil => intro v; rfl
  | cons p rest ih =>
    intro v
    simp [regenLoop, ih, generate_for_program_program]

theorem runPrograms_all_exist (env : GenEnv) (theme_dir : String)
    (palette : ColorPalette) (ps : List ProgramConfig)
    (hall : ∀ p ∈ ps,
      env.fileExists (pathJoin theme_dir p.output_file) = true) :
    runPrograms env theme_dir palette ps ⟨[], []⟩ =
      (ps.map (fun p =>
        ⟨p.name, pathJoin theme_dir p.output_file, true,
         "File already exists (skipped)"⟩), ⟨[], []⟩) := by
  induction ps with
  | nil => rfl
  | cons p rest ih =>
    have hp := hall p (List.mem_cons_self p rest)
    have hview : viewExists env ⟨[], []⟩
        (pathJoin theme_dir p.output_file) = true := by
      simp [viewExists, hp]
    have hrest := ih (fun q hq => hall q (List.mem_cons_of_mem p hq))
    simp [runPrograms, generate_for_program, hview, hrest]

/-! ## Claims C1, C9 -/

/-- C1 counterexample.  The claim includes the full deploy workflow
among the modes whose per-target failures are caught and reported as
one outcome per attempted target.  With two enabled and detected
targets where the first target's template rendering fails, the full
deploy workflow returns a single propagated error — no outcome list at
all — so the failure was not converted into a per-target outcome (the
second target, although enabled and detected, yields no outcome
either). -/
theorem c1_counterexample :
    generate_and_deploy
      ⟨fun _ => SourceStatus.parsed ColorPalette.default,
       fun _ => false,
       fun _ _ _ => Except.error "boom",
       fun _ _ => Except.ok (),
       fun _ => Except.ok (),
       fun _ => Except.error "no file",
       fun _ _ => Except.ok (),
       fun _ => true,
       fun n => some ⟨n, "/td", none, true, false, none⟩,
       fun _ => Except.ok ⟨"omarcord", true, "done"⟩,
       fun _ => Except.ok ⟨"omarchify", true, "done"⟩,
       "/home"⟩
      ⟨"/watch",
       [⟨"omarcord", true, "omarcord.theme.css", "omarcord", []⟩,
        ⟨"omarchify", true, "color.ini", "omarchify", []⟩],
       ["alacritty.toml"], "/gen", false, false, false⟩
      "/theme" =
      Except.error "Failed to render Omarcord template: boom" ∧
    (⟨"/watch",
      [⟨"omarcord", true, "omarcord.theme.css", "omarcord", []⟩,
       ⟨"omarchify", true, "color.ini", "omarchify", []⟩],
      ["alacritty.toml"], "/gen", false, false, false⟩ :
      Config).enabled_programs.length = 2 := by
  constructor
  · rfl
  · rfl

/-- C1 (amended).  In the generate-missing and regenerate-all modes the
claim holds: a run that passes extraction reports exactly one outcome
per enabled target, in order, and a per-target render or write failure
is caught and converted into a failed outcome carrying the error
message.  In the full deploy workflow it does not: a failing deploy
step of one detected target makes the whole run return that error,
producing no per-target outcomes and skipping every remaining
target. -/
theorem c1_per_target_isolation (env : GenEnv) (cfg : Config)
    (theme_dir : String) :
    (∀ rs, generate_missing_files env cfg theme_dir = .ok rs →
      rs.1.map (fun r => r.program) =
        cfg.enabled_programs.map (fun p => p.name)) ∧
    (∀ rs, regenerate_all_files env cfg theme_dir = .ok rs →
      rs.1.map (fun r => r.program) =
        cfg.enabled_programs.map (fun p => p.name)) ∧
    (∀ v palette prog e,
      viewExists env v (pathJoin theme_dir prog.output_file) = false →
      env.render prog.template palette prog.vars = .error e →
      generate_for_program env v theme_dir palette prog =
        (⟨prog.name, pathJoin theme_dir prog.output_file, false,
          "Template error: " ++ e⟩, v)) ∧
    (∀ v palette prog content e,
      viewExists env v (pathJoin theme_dir prog.output_file) = false →
      env.render prog.template palette prog.vars = .ok content →
      env.write (pathJoin theme_dir prog.output_file) content =
        .error e →
      generate_for_program env v theme_dir palette prog =
        (⟨prog.name, pathJoin theme_dir prog.output_file, false,
          "Write error: " ++ e⟩, v)) ∧
    (∀ palette prog rest inst e,
      env.detect prog.name = some inst →
      prog.name = "omarcord" →
      deploy_omarcord env cfg palette prog inst = .error e →
      deployLoop env cfg theme_dir palette (prog :: rest) =
        .error e) := by
  refine ⟨?_, ?_, ?_, ?_, ?_⟩
  · intro rs h
    unfold generate_missing_files at h
    cases hext : extract_colors env.sourceStatus (parse_color_priority cfg) with
    | none => rw [hext] at h; exact absurd h (by simp)
    | some ps =>
      rw [hext] at h
      cases ps with
      | mk palette src =>
        have hrs := Except.ok.inj h
        rw [← hrs]
        exact runPrograms_map_program env theme_dir palette
          cfg.enabled_programs ⟨[], []⟩
  · intro rs h
    unfold regenerate_all_files at h
    cases hext : extract_colors env.sourceStatus (parse_color_priority cfg) with
    | none => rw [hext] at h; exact absurd h (by simp)
    | some ps =>
      rw [hext] at h
      cases ps with
      | mk palette src =>
        have hrs := Except.ok.inj h
        rw [← hrs]
        exact regenLoop_map_program env theme_dir palette
          cfg.enabled_programs ⟨[], []⟩
  · intro v palette prog e hex hrender
    simp [generate_for_program, hex, hrender]
  · intro v palette prog content e hex hrender hwrite
    simp [generate_for_program, hex, hrender, hwrite]
  · intro palette prog rest inst e hdet hname hfail
    rw [deployLoop, hdet, hname]
    show (deploy_omarcord env cfg palette prog inst).bind
      (fun _ => deployLoop env cfg theme_dir palette rest) = .error e
    rw [hfail]
    rfl

/-- C1 witness: a failed render in generate-missing mode still yields
one outcome per enabled target (here: one, failed, carrying the error),
while the same failure in the full deploy workflow aborts the loop with
the propagated error for all continuations. -/
theorem c1_witness :
    ([(⟨"omarcord", "/t/o.css", false, "Template error: boom"⟩ :
        GenerationResult)].map (fun r => r.program)) =
      ([⟨"omarcord", true, "o.css", "omarcord", []⟩] :
        List ProgramConfig).map (fun p => p.name) ∧
    deployLoop
      ⟨fun _ => SourceStatus.parsed ColorPalette.default,
       fun _ => false,
       fun _ _ _ => Except.error "boom",
       fun _ _ => Except.ok (),
       fun _ => Except.ok (),
       fun _ => Except.error "no file",
       fun _ _ => Except.ok (),
       fun _ => true,
       fun n => some ⟨n, "/td", none, true, false, none⟩,
       fun _ => Except.ok ⟨"omarcord", true, "done"⟩,
       fun _ => Except.ok ⟨"omarchify", true, "done"⟩,
       "/home"⟩
      ⟨"/watch",
       [⟨"omarcord", true, "omarcord.theme.css", "omarcord", []⟩,
        ⟨"omarchify", true, "color.ini", "omarchify", []⟩],
       ["alacritty.toml"], "/gen", false, false, false⟩
      "/theme" ColorPalette.default
      [⟨"omarcord", true, "omarcord.theme.css", "omarcord", []⟩,
       ⟨"omarchify", true, "color.ini", "omarchify", []⟩] =
      Except.error "Failed to render Omarcord template: boom" :=
  ⟨(c1_per_target_isolation
      ⟨fun _ => SourceStatus.parsed ColorPalette.default,
       fun _ => false,
       fun _ _ _ => Except.error "boom",
       fun _ _ => Except.ok (),
       fun _ => Except.ok (),
       fun _ => Except.error "no file",
       fun _ _ => Except.ok (),
       fun _ => true,
       fun n => some ⟨n, "/td", none, true, false, none⟩,
       fun _ => Except.ok ⟨"omarcord", true, "done"⟩,
       fun _ => Except.ok ⟨"omarchify", true, "done"⟩,
       "/home"⟩
      ⟨"/watch", [⟨"omarcord", true, "o.css", "omarcord", []⟩],
       ["alacritty.toml"], "/gen", false, false, false⟩
      "/t").1
      ([⟨"omarcord", "/t/o.css", false, "Template error: boom"⟩],
        ⟨[], []⟩)
      (by rfl),
   (c1_per_target_isolation
      ⟨fun _ => SourceStatus.parsed ColorPalette.default,
       fun _ => false,
       fun _ _ _ => Except.error "boom",
       fun _ _ => Except.ok (),
       fun _ => Except.ok (),
       fun _ => Except.error "no file",
       fun _ _ => Except.ok (),
       fun _ => true,
       fun n => some ⟨n, "/td", none, true, false, none⟩,
       fun _ => Except.ok ⟨"omarcord", true, "done"⟩,
       fun _ => Except.ok ⟨"omarchify", true, "done"⟩,
       "/home"⟩
      ⟨"/watch",
       [⟨"omarcord", true, "omarcord.theme.css", "omarcord", []⟩,
        ⟨"omarchify", true, "color.ini", "omarchify", []⟩],
       ["alacritty.toml"], "/gen", false, false, false⟩
      "/theme").2.2.2.2 ColorPalette.default
      ⟨"omarcord", true, "omarcord.theme.css", "omarcord", []⟩
      [⟨"omarchify", true, "color.ini", "omarchify", []⟩]
      ⟨"omarcord", "/td", none, true, false, none⟩
      "Failed to render Omarcord template: boom"
      (by rfl) (by rfl) (by rfl)⟩

/-- C9: in generate-missing mode, a target whose destination file
already exists is reported as success with the "File already exists
(skipped)" message, the run's filesystem mutations are unchanged (no
write), and the outcome does not depend on the renderer or writer at
all (no render happens); moreover when every enabled target's
destination exists, the whole run reports one skipped-success outcome
per target and performs no mutation. -/
theorem c9_generate_missing_skip (env env2 : GenEnv) (v : FsView)
    (theme_dir : String) (palette : ColorPalette)
    (prog : ProgramConfig)
    (hex : viewExists env v (pathJoin theme_dir prog.output_file) = true)
    (hfs : env2.fileExists = env.fileExists) :
    generate_for_program env v theme_dir palette prog =
      (⟨prog.name, pathJoin theme_dir prog.output_file, true,
        "File already exists (skipped)"⟩, v) ∧
    generate_for_program env2 v theme_dir palette prog =
      generate_for_program env v theme_dir palette prog ∧
    (∀ cfg rs,
      (∀ p ∈ cfg.enabled_programs,
        env.fileExists (pathJoin theme_dir p.output_file) = true) →
      generate_missing_files env cfg theme_dir = .ok rs →
      rs = (cfg.enabled_programs.map (fun p =>
        ⟨p.name, pathJoin theme_dir p.output_file, true,
         "File already exists (skipped)"⟩), ⟨[], []⟩)) := by
  have hex2 : viewExists env2 v (pathJoin theme_dir prog.output_file)
      = true := by
    unfold viewExists at hex ⊢
    rw [hfs]
    exact hex
  refine ⟨?_, ?_, ?_⟩
  · simp [generate_for_program, hex]
  · simp [generate_for_program, hex, hex2]
  · intro cfg rs hall h
    unfold generate_missing_files at h
    cases hext : extract_colors env.sourceStatus (parse_color_priority cfg) with
    | none => rw [hext] at h; exact absurd h (by simp)
    | some ps =>
      rw [hext] at h
      cases ps with
      | mk pal src =>
        have hrs := Except.ok.inj h
        rw [← hrs]
        exact runPrograms_all_exist env theme_dir pal
          cfg.enabled_programs hall

/-- C9 witness: the theorem applied to a concrete environment whose
destination file exists. -/
theorem c9_witness :
    generate_for_program
      ⟨fun _ => SourceStatus.missing,
       fun _ => true,
       fun _ _ _ => Except.error "never rendered",
       fun _ _ => Except.ok (),
       fun _ => Except.ok (),
       fun _ => Except.error "no file",
       fun _ _ => Except.ok (),
       fun _ => true,
       fun _ => none,
       fun _ => Except.error "no activation",
       fun _ => Except.error "no activation",
       "/home"⟩
      ⟨[], []⟩ "/t" ColorPalette.default
      ⟨"prog", true, "out.css", "tmpl", []⟩ =
      (⟨"prog", pathJoin "/t" "out.css", true,
        "File already exists (skipped)"⟩, ⟨[], []⟩) :=
  (c9_generate_missing_skip
    ⟨fun _ => SourceStatus.missing,
     fun _ => true,
     fun _ _ _ => Except.error "never rendered",
     fun _ _ => Except.ok (),
     fun _ => Except.ok (),
     fun _ => Except.error "no file",
     fun _ _ => Except.ok (),
     fun _ => true,
     fun _ => none,
     fun _ => Except.error "no activation",
     fun _ => Except.error "no activation",
     "/home"⟩
    ⟨fun _ => SourceStatus.missing,
     fun _ => true,
     fun _ _ _ => Except.error "never rendered",
     fun _ _ => Except.ok (),
     fun _ => Except.ok (),
     fun _ => Except.error "no file",
     fun _ _ => Except.ok (),
     fun _ => true,
     fun _ => none,
     fun _ => Except.error "no activation",
     fun _ => Except.error "no activation",
     "/home"⟩
    ⟨[], []⟩ "/t" ColorPalette.default
    ⟨"prog", true, "out.css", "tmpl", []⟩
    (by decide) rfl).1

end ThemeGen

